import Mathlib

/-!
Shallow embedding of the scoring core of `app.py` (US Relocation
Recommendation Tool): the haversine distance helper, the fixed ten-state
dataset, the zip-code lookup table, and the reactive `compute_scores`
calculation that writes `base_score`, `proximity_multiplier` and
`final_score` columns into the shared table.  Python floats are modelled
as real numbers; the shared pandas DataFrame is modelled as an explicit
state record threaded through `compute_scores`.
-/

namespace App

noncomputable section

/-- One row of the ten-state dataset (`data` in `app.py`). -/
structure Region where
  state : String
  state_code : String
  income : ℝ
  cost_of_living : ℝ
  crime_rate : ℝ
  job_opportunities : ℝ
  climate : ℝ
  lat : ℝ
  lon : ℝ

/-- The five slider weights read by `compute_scores`. -/
structure Weights where
  w_income : ℝ
  w_cost : ℝ
  w_crime : ℝ
  w_job : ℝ
  w_climate : ℝ

/-- Degrees to radians, `math.radians`. -/
def radians (x : ℝ) : ℝ := x * Real.pi / 180

/-- `haversine(lat1, lon1, lat2, lon2)` from `app.py`: great-circle
distance in kilometers; converts the four inputs to radians, then
`a = sin(dlat/2)^2 + cos(lat1)*cos(lat2)*sin(dlon/2)^2`,
`c = 2*asin(sqrt(a))`, `km = 6371*c`. -/
def haversine (lat1 lon1 lat2 lon2 : ℝ) : ℝ :=
  let lat1r := radians lat1
  let lon1r := radians lon1
  let lat2r := radians lat2
  let lon2r := radians lon2
  let dlat := lat2r - lat1r
  let dlon := lon2r - lon1r
  let a := Real.sin (dlat / 2) ^ 2 +
    Real.cos lat1r * Real.cos lat2r * Real.sin (dlon / 2) ^ 2
  let c := 2 * Real.arcsin (Real.sqrt a)
  6371 * c

/-- The exponential-decay proximity multiplier of line 119 of `app.py`:
`multiplier = math.exp(-distance / 500)`. -/
def multiplier (distance : ℝ) : ℝ := Real.exp (-distance / 500)

/-- The weighted-sum base score of lines 105-109 of `app.py`, applied to
one row. -/
def baseScore (w : Weights) (r : Region) : ℝ :=
  w.w_income * r.income + w.w_cost * r.cost_of_living +
    w.w_crime * r.crime_rate + w.w_job * r.job_opportunities +
    w.w_climate * r.climate

/-- The fixed ten-state dataset `data` of `app.py`. -/
def data : List Region := [
  { state := "California", state_code := "CA", income := 8, cost_of_living := 7, crime_rate := 4, job_opportunities := 9, climate := 8, lat := 36.7783, lon := -119.4179 },
  { state := "Texas", state_code := "TX", income := 7, cost_of_living := 5, crime_rate := 6, job_opportunities := 8, climate := 7, lat := 31.9686, lon := -99.9018 },
  { state := "New York", state_code := "NY", income := 9, cost_of_living := 6, crime_rate := 5, job_opportunities := 9, climate := 6, lat := 42.1657, lon := -74.9481 },
  { state := "Florida", state_code := "FL", income := 6, cost_of_living := 6, crime_rate := 7, job_opportunities := 7, climate := 9, lat := 27.9944, lon := -81.7603 },
  { state := "Illinois", state_code := "IL", income := 7, cost_of_living := 5, crime_rate := 6, job_opportunities := 7, climate := 6, lat := 40.0, lon := -89.0 },
  { state := "Pennsylvania", state_code := "PA", income := 7, cost_of_living := 6, crime_rate := 5, job_opportunities := 7, climate := 5, lat := 41.2033, lon := -77.1945 },
  { state := "Ohio", state_code := "OH", income := 6, cost_of_living := 5, crime_rate := 6, job_opportunities := 7, climate := 5, lat := 40.3675, lon := -82.9962 },
  { state := "Georgia", state_code := "GA", income := 7, cost_of_living := 6, crime_rate := 5, job_opportunities := 7, climate := 8, lat := 32.1656, lon := -82.9001 },
  { state := "North Carolina", state_code := "NC", income := 7, cost_of_living := 6, crime_rate := 5, job_opportunities := 7, climate := 7, lat := 35.7596, lon := -79.0193 },
  { state := "Michigan", state_code := "MI", income := 6, cost_of_living := 5, crime_rate := 7, job_opportunities := 6, climate := 4, lat := 44.3148, lon := -85.6024 }]

/-- The dummy zip-code lookup table `zip_lookup` of `app.py`, as an
association list from zip string to (lat, lon). -/
def zip_lookup : List (String × ℝ × ℝ) := [
  ("10001", 40.750742, -73.99653),
  ("90001", 33.973951, -118.248405),
  ("60601", 41.88531, -87.62166)]

/-- Membership test plus indexing of the Python dict: `some (lat, lon)`
when the key is present, `none` otherwise. -/
def lookupZip (z : String) : Option (ℝ × ℝ) :=
  List.lookup z zip_lookup

/-- The characters removed by Python `str.strip()`: the code points with
`str.isspace()` true (bidirectional class WS, B or S, or Unicode category
Zs): 0x09-0x0d, 0x1c-0x1f, space, NEL 0x85, NBSP 0xa0, 0x1680,
0x2000-0x200a, the line and paragraph separators 0x2028-0x2029, 0x202f,
0x205f and 0x3000. -/
def isPySpace (c : Char) : Bool :=
  [0x09, 0x0a, 0x0b, 0x0c, 0x0d, 0x1c, 0x1d, 0x1e, 0x1f, 0x20, 0x85, 0xa0,
    0x1680, 0x2000, 0x2001, 0x2002, 0x2003, 0x2004, 0x2005, 0x2006, 0x2007,
    0x2008, 0x2009, 0x200a, 0x2028, 0x2029, 0x202f, 0x205f,
    0x3000].contains c.toNat

/-- Drop leading and trailing whitespace from a character list. -/
def stripList (l : List Char) : List Char :=
  ((l.dropWhile isPySpace).reverse.dropWhile isPySpace).reverse

/-- Python `str.strip()`: drop leading and trailing whitespace. -/
def pyStrip (s : String) : String :=
  String.mk (stripList s.data)

/-- The shared pandas DataFrame `df`: the fixed rows plus the three score
columns that `compute_scores` writes in place (absent before they are
first assigned). -/
structure DataFrame where
  rows : List Region
  base_score : Option (List ℝ)
  proximity_multiplier : Option (List ℝ)
  final_score : Option (List ℝ)

/-- The reactive calculation `compute_scores` of `app.py` (lines 96-126):
writes the `base_score` column, strips the zip input, and if the stripped
zip is in `zip_lookup` writes `proximity_multiplier` and
`final_score = base_score * (1 + proximity_multiplier)`, else writes
`final_score = base_score`.  The mutated shared table is returned. -/
def compute_scores (w : Weights) (zip_code_input : String) (df : DataFrame) :
    DataFrame :=
  let bs := df.rows.map (fun r => baseScore w r)
  let zip_code := pyStrip zip_code_input
  match lookupZip zip_code with
  | some (zip_lat, zip_lon) =>
      let multipliers :=
        df.rows.map (fun r => multiplier (haversine zip_lat zip_lon r.lat r.lon))
      { df with
          base_score := some bs,
          proximity_multiplier := some multipliers,
          final_score := some (List.zipWith (fun b m => b * (1 + m)) bs multipliers) }
  | none =>
      { df with base_score := some bs, final_score := some bs }

/-- The DataFrame as it is at startup (`df = pd.DataFrame(data)`): the ten
rows, no score columns yet. -/
def df0 : DataFrame :=
  { rows := data, base_score := none, proximity_multiplier := none,
    final_score := none }

/-- The default slider position: every weight 0.2. -/
def w02 : Weights :=
  { w_income := 0.2, w_cost := 0.2, w_crime := 0.2, w_job := 0.2,
    w_climate := 0.2 }

/-! ### Helper lemmas -/

/-- `dropWhile` is idempotent. -/
lemma dropWhile_self {α : Type} (p : α → Bool) (l : List α) :
    (l.dropWhile p).dropWhile p = l.dropWhile p := by
  induction l with
  | nil => simp
  | cons a t ih =>
      cases hpa : p a
      · simp [List.dropWhile_cons, hpa]
      · simpa [List.dropWhile_cons, hpa] using ih

/-- A prefix of a list that is fixed by `dropWhile` is itself fixed. -/
lemma dropWhile_eq_self_of_prefix {α : Type} (p : α → Bool) {t u : List α}
    (ht : t.dropWhile p = t) (hu : u <+: t) : u.dropWhile p = u := by
  obtain ⟨r, hr⟩ := hu
  cases u with
  | nil => rfl
  | cons a u' =>
      have hpa : p a = false := by
        cases hpa : p a
        · rfl
        · exfalso
          rw [← hr, List.cons_append, List.dropWhile_cons_of_pos hpa] at ht
          have hlen := (List.dropWhile_sublist (l := u' ++ r) p).length_le
          rw [ht] at hlen
          simp at hlen
      simp [List.dropWhile_cons, hpa]

/-- Stripping is idempotent at the character-list level. -/
lemma stripList_idem (l : List Char) : stripList (stripList l) = stripList l := by
  unfold stripList
  have ht := dropWhile_self isPySpace l
  have hu : ((l.dropWhile isPySpace).reverse.dropWhile isPySpace).reverse <+:
      l.dropWhile isPySpace := by
    have h1 := List.dropWhile_suffix (l := (l.dropWhile isPySpace).reverse) isPySpace
    have h2 := List.reverse_prefix.mpr h1
    rwa [List.reverse_reverse] at h2
  have hA := dropWhile_eq_self_of_prefix isPySpace ht hu
  rw [hA, List.reverse_reverse, dropWhile_self]

/-- Python `strip` is idempotent. -/
lemma pyStrip_idem (s : String) : pyStrip (pyStrip s) = pyStrip s :=
  congrArg String.mk (stripList_idem s.data)

/-- The distance returned by `haversine` is never negative. -/
lemma haversine_nonneg (lat1 lon1 lat2 lon2 : ℝ) :
    0 ≤ haversine lat1 lon1 lat2 lon2 := by
  simp only [haversine]
  exact mul_nonneg (by norm_num)
    (mul_nonneg (by norm_num) (Real.arcsin_nonneg.mpr (Real.sqrt_nonneg _)))

/-- The proximity multiplier is always positive. -/
lemma multiplier_pos (d : ℝ) : 0 < multiplier d := Real.exp_pos _

/-- The proximity multiplier is at most one for nonnegative distances. -/
lemma multiplier_le_one {d : ℝ} (hd : 0 ≤ d) : multiplier d ≤ 1 := by
  unfold multiplier
  rw [Real.exp_le_one_iff]
  linarith

/-- Scaling by `1 + m` with positive `m` is the identity exactly at zero. -/
lemma mul_one_add_eq_self_iff {b m : ℝ} (hm : 0 < m) :
    b * (1 + m) = b ↔ b = 0 := by
  constructor
  · intro h
    have h' : b * m = 0 := by nlinarith
    rcases mul_eq_zero.mp h' with h0 | h0
    · exact h0
    · exact absurd h0 hm.ne'
  · intro h; rw [h]; ring

/-- The `base_score` column written by `compute_scores`. -/
lemma compute_scores_base (w : Weights) (z : String) (df : DataFrame) :
    (compute_scores w z df).base_score =
      some (df.rows.map (fun r => baseScore w r)) := by
  unfold compute_scores
  rcases h : lookupZip (pyStrip z) with _ | ⟨zlat, zlon⟩ <;> simp [h]

/-- `compute_scores` never changes the rows of the table. -/
lemma compute_scores_rows (w : Weights) (z : String) (df : DataFrame) :
    (compute_scores w z df).rows = df.rows := by
  unfold compute_scores
  rcases h : lookupZip (pyStrip z) with _ | ⟨zlat, zlon⟩ <;> simp [h]

/-- The `final_score` column when the stripped zip is found. -/
lemma compute_scores_final_found (w : Weights) (z : String) (df : DataFrame)
    (zlat zlon : ℝ) (h : lookupZip (pyStrip z) = some (zlat, zlon)) :
    (compute_scores w z df).final_score =
      some (List.zipWith (fun b m => b * (1 + m))
        (df.rows.map (fun r => baseScore w r))
        (df.rows.map (fun r => multiplier (haversine zlat zlon r.lat r.lon)))) := by
  unfold compute_scores
  simp [h]

/-- The `proximity_multiplier` column when the stripped zip is found. -/
lemma compute_scores_prox_found (w : Weights) (z : String) (df : DataFrame)
    (zlat zlon : ℝ) (h : lookupZip (pyStrip z) = some (zlat, zlon)) :
    (compute_scores w z df).proximity_multiplier =
      some (df.rows.map (fun r => multiplier (haversine zlat zlon r.lat r.lon))) := by
  unfold compute_scores
  simp [h]

/-- The `final_score` column when the stripped zip is not found. -/
lemma compute_scores_final_none (w : Weights) (z : String) (df : DataFrame)
    (h : lookupZip (pyStrip z) = none) :
    (compute_scores w z df).final_score =
      some (df.rows.map (fun r => baseScore w r)) := by
  unfold compute_scores
  simp [h]

/-- The stale `proximity_multiplier` column when the stripped zip is not
found: it is left exactly as it was. -/
lemma compute_scores_prox_none (w : Weights) (z : String) (df : DataFrame)
    (h : lookupZip (pyStrip z) = none) :
    (compute_scores w z df).proximity_multiplier = df.proximity_multiplier := by
  unfold compute_scores
  simp [h]

/-- Every factor of every region of the dataset is nonnegative. -/
lemma data_factors_nonneg : ∀ r ∈ data,
    0 ≤ r.income ∧ 0 ≤ r.cost_of_living ∧ 0 ≤ r.crime_rate ∧
      0 ≤ r.job_opportunities ∧ 0 ≤ r.climate := by
  intro r hr
  simp only [data, List.mem_cons, List.not_mem_nil, or_false] at hr
  rcases hr with rfl | rfl | rfl | rfl | rfl | rfl | rfl | rfl | rfl | rfl <;>
    refine ⟨by norm_num, by norm_num, by norm_num, by norm_num, by norm_num⟩

/-- The base score of a dataset region is nonnegative for nonnegative
weights. -/
lemma baseScore_nonneg {w : Weights} {r : Region} (hr : r ∈ data)
    (h0 : 0 ≤ w.w_income) (h1 : 0 ≤ w.w_cost) (h2 : 0 ≤ w.w_crime)
    (h3 : 0 ≤ w.w_job) (h4 : 0 ≤ w.w_climate) : 0 ≤ baseScore w r := by
  obtain ⟨f1, f2, f3, f4, f5⟩ := data_factors_nonneg r hr
  unfold baseScore
  have := mul_nonneg h0 f1
  have := mul_nonneg h1 f2
  have := mul_nonneg h2 f3
  have := mul_nonneg h3 f4
  have := mul_nonneg h4 f5
  linarith

/-! ### Claim theorems -/

/-- C1: for every region and weight vector the base score written by
`compute_scores` is the raw weighted sum
`w_income*income + w_cost*costOfLiving + w_crime*crimeRate +
w_job*jobOpportunities + w_climate*climate`, with no normalization of the
weights; for the California region with all five weights 0.2 the base
score is 7.2. -/
theorem base_score_weighted_sum :
    (∀ (w : Weights) (z : String) (df : DataFrame),
      (compute_scores w z df).base_score =
        some (df.rows.map (fun r =>
          w.w_income * r.income + w.w_cost * r.cost_of_living +
            w.w_crime * r.crime_rate + w.w_job * r.job_opportunities +
            w.w_climate * r.climate))) ∧
    (data.get ⟨0, by simp [data]⟩).state = "California" ∧
    baseScore w02 (data.get ⟨0, by simp [data]⟩) = 7.2 := by
  refine ⟨fun w z df => compute_scores_base w z df, rfl, ?_⟩
  simp [data, baseScore, w02]
  norm_num

/-- C4: `haversine` converts all four coordinates from degrees to radians
and returns `2 * 6371 * asin(sqrt(sin²(Δlat/2) +
cos(lat1)·cos(lat2)·sin²(Δlon/2)))`; identical points give distance 0. -/
theorem haversine_formula_and_zero :
    (∀ lat1 lon1 lat2 lon2 : ℝ,
      haversine lat1 lon1 lat2 lon2 =
        2 * 6371 * Real.arcsin (Real.sqrt
          (Real.sin ((radians lat2 - radians lat1) / 2) ^ 2 +
            Real.cos (radians lat1) * Real.cos (radians lat2) *
              Real.sin ((radians lon2 - radians lon1) / 2) ^ 2))) ∧
    (∀ lat lon : ℝ, haversine lat lon lat lon = 0) := by
  constructor
  · intro lat1 lon1 lat2 lon2
    simp only [haversine]
    ring
  · intro lat lon
    simp only [haversine, sub_self, zero_div, Real.sin_zero]
    norm_num [Real.sqrt_zero, Real.arcsin_zero]

/-- C7: the great-circle distance is symmetric in its two points (exactly,
in the real-number model). -/
theorem haversine_symmetric : ∀ lat1 lon1 lat2 lon2 : ℝ,
    haversine lat1 lon1 lat2 lon2 = haversine lat2 lon2 lat1 lon1 := by
  intro lat1 lon1 lat2 lon2
  simp only [haversine]
  have key : ∀ x y : ℝ,
      Real.sin ((x - y) / 2) ^ 2 = Real.sin ((y - x) / 2) ^ 2 := by
    intro x y
    rw [show (x - y) / 2 = -((y - x) / 2) by ring, Real.sin_neg]
    ring
  rw [key (radians lat2) (radians lat1), key (radians lon2) (radians lon1),
    mul_comm (Real.cos (radians lat1)) (Real.cos (radians lat2))]

/-- C5: the proximity multiplier is `exp(-d/500)`; it is 1 at distance 0,
lies in (0,1] for nonnegative distances, and is strictly decreasing. -/
theorem proximity_multiplier_spec :
    multiplier 0 = 1 ∧
    (∀ d : ℝ, multiplier d = Real.exp (-d / 500)) ∧
    (∀ d : ℝ, 0 ≤ d → 0 < multiplier d ∧ multiplier d ≤ 1) ∧
    (∀ d1 d2 : ℝ, d1 < d2 → multiplier d2 < multiplier d1) := by
  refine ⟨?_, fun d => rfl,
    fun d hd => ⟨multiplier_pos d, multiplier_le_one hd⟩, ?_⟩
  · unfold multiplier
    norm_num
  · intro d1 d2 h
    unfold multiplier
    rw [Real.exp_lt_exp]
    linarith

/-- Witness for C5 at distances 0 and 300. -/
theorem proximity_multiplier_spec_witness :
    (0:ℝ) ≤ 300 ∧ (0 < multiplier 300 ∧ multiplier 300 ≤ 1) ∧
      ((0:ℝ) < 300 ∧ multiplier 300 < multiplier 0) :=
  ⟨by norm_num, proximity_multiplier_spec.2.2.1 300 (by norm_num),
    by norm_num, proximity_multiplier_spec.2.2.2 0 300 (by norm_num)⟩

/-- C2 counterexample: with all five weights 0 and the valid zip "90001"
(an actual entry of `zip_lookup`, hence a finite-distance query location),
the final score written by `compute_scores` equals the base score for
every region, refuting equality only in the limit of infinite distance. -/
theorem final_eq_base_at_finite_distance :
    lookupZip (pyStrip "90001") = some (33.973951, -118.248405) ∧
    (compute_scores ⟨0, 0, 0, 0, 0⟩ "90001" df0).final_score =
      (compute_scores ⟨0, 0, 0, 0, 0⟩ "90001" df0).base_score := by
  refine ⟨rfl, ?_⟩
  rw [compute_scores_final_found ⟨0, 0, 0, 0, 0⟩ "90001" df0 33.973951
    (-118.248405) rfl, compute_scores_base]
  simp [df0, data, baseScore]

/-- C2 (amended): when the stripped zip resolves, the final-score column
is `base * (1 + multiplier)` row by row; for every dataset region,
nonnegative weights and any query location, the multiplier lies in (0,1],
so `base ≤ final ≤ 2*base`, and `final = base` holds exactly when the
base score is 0 (for example with all weights 0) rather than only in the
limit of infinite distance. -/
theorem final_score_vs_base :
    (∀ (w : Weights) (z : String) (df : DataFrame) (zlat zlon : ℝ),
      lookupZip (pyStrip z) = some (zlat, zlon) →
      (compute_scores w z df).final_score =
        some (List.zipWith (fun b m => b * (1 + m))
          (df.rows.map (fun r => baseScore w r))
          (df.rows.map (fun r => multiplier (haversine zlat zlon r.lat r.lon))))) ∧
    (∀ (w : Weights) (r : Region), r ∈ data →
      0 ≤ w.w_income → 0 ≤ w.w_cost → 0 ≤ w.w_crime → 0 ≤ w.w_job →
      0 ≤ w.w_climate → ∀ zlat zlon : ℝ,
      0 < multiplier (haversine zlat zlon r.lat r.lon) ∧
      multiplier (haversine zlat zlon r.lat r.lon) ≤ 1 ∧
      baseScore w r ≤
        baseScore w r * (1 + multiplier (haversine zlat zlon r.lat r.lon)) ∧
      baseScore w r * (1 + multiplier (haversine zlat zlon r.lat r.lon)) ≤
        2 * baseScore w r ∧
      (baseScore w r * (1 + multiplier (haversine zlat zlon r.lat r.lon)) =
          baseScore w r ↔ baseScore w r = 0)) := by
  constructor
  · intro w z df zlat zlon h
    exact compute_scores_final_found w z df zlat zlon h
  · intro w r hr h0 h1 h2 h3 h4 zlat zlon
    have hb := baseScore_nonneg hr h0 h1 h2 h3 h4
    have hmp := multiplier_pos (haversine zlat zlon r.lat r.lon)
    have hm1 := multiplier_le_one (haversine_nonneg zlat zlon r.lat r.lon)
    refine ⟨hmp, hm1, ?_, ?_, mul_one_add_eq_self_iff hmp⟩
    · nlinarith
    · nlinarith

/-- Witness for C2 (amended) at the California row and the location of
zip "90001". -/
theorem final_score_vs_base_witness :
    0 < multiplier (haversine 33.973951 (-118.248405)
      (data.get ⟨0, by simp [data]⟩).lat (data.get ⟨0, by simp [data]⟩).lon) :=
  (final_score_vs_base.2 w02 (data.get ⟨0, by simp [data]⟩)
    (List.get_mem data 0 (by simp [data]))
    (by norm_num [w02]) (by norm_num [w02]) (by norm_num [w02])
    (by norm_num [w02]) (by norm_num [w02]) 33.973951 (-118.248405)).1

/-- C3 counterexample: the string " 10001 " is absent from `zip_lookup`,
yet `compute_scores` does not behave as in the no-location case: because
the input is stripped before the lookup, the proximity adjustment fires
and the final score differs from the base score. -/
theorem absent_zip_counterexample :
    lookupZip " 10001 " = none ∧
    (compute_scores w02 " 10001 " df0).final_score ≠
      (compute_scores w02 " 10001 " df0).base_score := by
  refine ⟨rfl, ?_⟩
  rw [compute_scores_final_found w02 " 10001 " df0 40.750742 (-73.99653) rfl,
    compute_scores_base]
  intro heq
  rw [Option.some.injEq] at heq
  have h1 := congrArg List.head? heq
  simp only [df0, data, List.map_cons, List.zipWith_cons_cons,
    List.head?_cons, Option.some.injEq] at h1
  rw [mul_one_add_eq_self_iff (multiplier_pos _)] at h1
  norm_num [baseScore, w02] at h1

/-- C3 (amended): for every zip string whose stripped form is absent from
the lookup table (including the empty string), `compute_scores` behaves
identically to the no-location (empty input) case and the final score
equals the base score; no failure occurs. -/
theorem absent_zip_falls_back (w : Weights) (z : String) (df : DataFrame)
    (h : lookupZip (pyStrip z) = none) :
    compute_scores w z df = compute_scores w "" df ∧
    (compute_scores w z df).final_score =
      (compute_scores w z df).base_score := by
  have h0 : lookupZip (pyStrip "") = none := rfl
  constructor
  · simp only [compute_scores, h, h0]
  · rw [compute_scores_final_none w z df h, compute_scores_base]

/-- Witness for C3 (amended) at the zip "99999" of the spec scenario. -/
theorem absent_zip_falls_back_witness :
    lookupZip (pyStrip "99999") = none ∧
    (compute_scores w02 "99999" df0).final_score =
      (compute_scores w02 "99999" df0).base_score :=
  ⟨rfl, (absent_zip_falls_back w02 "99999" df0 rfl).2⟩

/-- C6 counterexample: computing scores does mutate the shared table:
starting from the startup table (no score columns), the returned table
differs from the input table. -/
theorem compute_scores_mutates :
    compute_scores w02 "" df0 ≠ df0 := by
  intro h
  have hb := congrArg DataFrame.base_score h
  rw [compute_scores_base] at hb
  simp [df0] at hb

/-- C6 (amended): `compute_scores` writes score columns into the shared
table — a side effect, the returned table differs from the input — but it never
changes the region rows themselves. -/
theorem compute_scores_mutates_columns_only :
    (∀ (w : Weights) (z : String) (df : DataFrame),
      (compute_scores w z df).rows = df.rows) ∧
    (compute_scores w02 "" df0).base_score =
      some (data.map (fun r => baseScore w02 r)) ∧
    df0.base_score = none := by
  refine ⟨compute_scores_rows, ?_, rfl⟩
  rw [compute_scores_base]
  rfl

/-- C8: for every weight vector and zip input, the computation over the
fixed ten-region dataset keeps all ten rows in input order (no filtering,
no duplicates, no sorting) and produces a final-score column with exactly
ten entries. -/
theorem rank_regions_complete : ∀ (w : Weights) (z : String),
    (compute_scores w z df0).rows = data ∧
    (compute_scores w z df0).rows.length = 10 ∧
    ((compute_scores w z df0).rows.map Region.state).Nodup ∧
    ∃ fs, (compute_scores w z df0).final_score = some fs ∧ fs.length = 10 := by
  intro w z
  have hrows : (compute_scores w z df0).rows = data := compute_scores_rows w z df0
  refine ⟨hrows, by rw [hrows]; rfl, by rw [hrows]; decide, ?_⟩
  rcases h : lookupZip (pyStrip z) with _ | ⟨zlat, zlon⟩
  · refine ⟨_, compute_scores_final_none w z df0 h, ?_⟩
    simp [df0, data]
  · refine ⟨_, compute_scores_final_found w z df0 zlat zlon h, ?_⟩
    simp [df0, data]

/-- C9: the zip input is stripped before the lookup, so for every weight
vector and table state, surrounding whitespace never changes the result;
in particular " 90001 " behaves exactly like "90001", and so does
"90001" preceded by a no-break space (non-ASCII whitespace). -/
theorem zip_strip_invariant :
    (∀ (w : Weights) (z : String) (df : DataFrame),
      compute_scores w z df = compute_scores w (pyStrip z) df) ∧
    compute_scores w02 " 90001 " df0 = compute_scores w02 "90001" df0 ∧
    compute_scores w02 "\u00A090001" df0 = compute_scores w02 "90001" df0 := by
  have main : ∀ (w : Weights) (z : String) (df : DataFrame),
      compute_scores w z df = compute_scores w (pyStrip z) df := by
    intro w z df
    unfold compute_scores
    rw [pyStrip_idem]
  exact ⟨main, main w02 " 90001 " df0, main w02 "\u00A090001" df0⟩

/-- C10: after a computation with a valid zip, a subsequent computation
with an absent zip keeps the previous proximity_multiplier column (while
final_score is reset to base_score), so the returned table is not a
function of the current inputs alone. -/
theorem stale_proximity_column (w1 w2 : Weights) (df : DataFrame)
    (z1 z2 : String) (zlat zlon : ℝ)
    (h1 : lookupZip (pyStrip z1) = some (zlat, zlon))
    (h2 : lookupZip (pyStrip z2) = none) :
    (compute_scores w2 z2 (compute_scores w1 z1 df)).proximity_multiplier =
      (compute_scores w1 z1 df).proximity_multiplier ∧
    (compute_scores w1 z1 df).proximity_multiplier =
      some (df.rows.map (fun r => multiplier (haversine zlat zlon r.lat r.lon))) ∧
    (compute_scores w2 z2 (compute_scores w1 z1 df)).final_score =
      (compute_scores w2 z2 (compute_scores w1 z1 df)).base_score ∧
    compute_scores w2 z2 (compute_scores w1 z1 df0) ≠
      compute_scores w2 z2 df0 := by
  refine ⟨compute_scores_prox_none w2 z2 _ h2,
    compute_scores_prox_found w1 z1 df zlat zlon h1, ?_, ?_⟩
  · rw [compute_scores_final_none w2 z2 _ h2, compute_scores_base]
  · intro heq
    have hp := congrArg DataFrame.proximity_multiplier heq
    rw [compute_scores_prox_none w2 z2 _ h2,
      compute_scores_prox_found w1 z1 df0 zlat zlon h1,
      compute_scores_prox_none w2 z2 df0 h2] at hp
    simp [df0] at hp

/-- Witness for C10 with zips "90001" then "99999". -/
theorem stale_proximity_column_witness :
    (compute_scores w02 "99999"
        (compute_scores w02 "90001" df0)).proximity_multiplier =
      (compute_scores w02 "90001" df0).proximity_multiplier :=
  (stale_proximity_column w02 w02 df0 "90001" "99999" 33.973951
    (-118.248405) rfl rfl).1

end

end App
